import Mathlib

/-!
Shallow embedding of the fairV pricing core
from src/types/tcg.types.ts and src/types/bundle.types.ts.

Conventions of the embedding:
- TypeScript number is modelled as the exact rationals.
- TypeScript string is modelled as Lean String; the trim method of
  JavaScript strings is modelled by jsTrim below.
- Date is modelled as an integer timestamp; the impure call new Date()
  inside updateBundleTotal is modelled by an explicit now argument.
- A TypeScript function that can throw is modelled as Except String.
-/

/-- Timestamps, standing in for the JavaScript Date values. -/
abbrev Date := Int

/-- Trim of surrounding whitespace, as the JavaScript trim method does:
drop whitespace characters from both ends of the string. -/
def jsTrim (s : String) : String :=
  ⟨((s.toList.dropWhile Char.isWhitespace).reverse.dropWhile Char.isWhitespace).reverse⟩

/-- TCG type tags from tcg.types.ts. -/
inductive TCGType where
  | pokemon
  | yugioh
  | magicTheGathering
  | sportsCard
  | other
deriving DecidableEq

/-- Condition ratings from tcg.types.ts. -/
inductive ConditionRating where
  | nearMint
  | lightlyPlayed
  | moderatelyPlayed
  | heavilyPlayed
  | damaged
deriving DecidableEq

/-- The TCGCard interface of tcg.types.ts; optional fields become Option. -/
structure TCGCard where
  id : String
  cardName : String
  setName : Option String := none
  cardNumber : Option String := none
  rarity : Option String := none
  tcgType : Option TCGType := none
  printVariant : Option String := none
  language : String := "English"
  trendingPrice : Option ℚ := none
  averagePrice : Option ℚ := none
  lowPrice : Option ℚ := none
  priceLastUpdated : Option Date := none
  priceSource : Option String := none
  conditionRating : Option ConditionRating := none
  conditionDescription : Option String := none
  centeringScore : Option String := none
  cornerCondition : Option String := none
  edgeCondition : Option String := none
  surfaceCondition : Option String := none
  gradingPotential : Option String := none
  authenticityScore : Option ℚ := none
  authenticityNotes : Option String := none
  scannedAt : Date := 0
  imageUrl : Option String := none
  userNotes : Option String := none
deriving DecidableEq

/-- The PricingStrategy union type of bundle.types.ts. -/
inductive PricingStrategy where
  | trending
  | average
  | low
deriving DecidableEq

/-- The CardBundle interface of bundle.types.ts. -/
structure CardBundle where
  id : String
  name : String
  cardIDs : List String
  pricingStrategy : PricingStrategy
  percentageMultiplier : ℚ
  calculatedTotal : ℚ
  notes : Option String := none
  createdAt : Date
  lastModified : Date
deriving DecidableEq

/-- The BundleStatistics interface of bundle.types.ts. -/
structure BundleStatistics where
  trendingTotal : ℚ
  averageTotal : ℚ
  lowTotal : ℚ
  selectedTotal : ℚ
  cardCount : Nat
  validCardCount : Nat
deriving DecidableEq

/-- The BundleValidation interface of bundle.types.ts. -/
structure BundleValidation where
  isValid : Bool
  errors : List String
deriving DecidableEq

/-- The PriceTableRow interface of tcg.types.ts. -/
structure PriceTableRow where
  percentage : ℚ
  trendingValue : ℚ
  averageValue : ℚ
  lowValue : ℚ
deriving DecidableEq

/-- getPriceForStrategy of bundle.types.ts: select the price tier named
by the strategy, which may be absent. -/
def getPriceForStrategy (card : TCGCard) (strategy : PricingStrategy) : Option ℚ :=
  match strategy with
  | .trending => card.trendingPrice
  | .average => card.averagePrice
  | .low => card.lowPrice

/-- Message of the error thrown by calculateBundleTotal on an out-of-range
multiplier. -/
def multiplierErrorMsg : String :=
  "Multiplier must be between 0.1 and 1.0 (10% to 100%)"

/-- calculateBundleTotal of bundle.types.ts: validate the multiplier, sum
the tier prices selected by the strategy with a missing tier contributing
zero, then scale by the multiplier. -/
def calculateBundleTotal (cards : List TCGCard) (strategy : PricingStrategy)
    (multiplier : ℚ) : Except String ℚ :=
  if multiplier < 1/10 ∨ multiplier > 1 then
    .error multiplierErrorMsg
  else
    .ok ((cards.foldl
      (fun sum card => sum + ((getPriceForStrategy card strategy).getD 0)) 0)
      * multiplier)

/-- Accumulator of the statistics loop in calculateBundleStatistics. -/
structure StatsAcc where
  trendingTotal : ℚ
  averageTotal : ℚ
  lowTotal : ℚ
  validCards : Nat
deriving DecidableEq

/-- One iteration of the for-loop body of calculateBundleStatistics. -/
def statsStep (acc : StatsAcc) (card : TCGCard) : StatsAcc :=
  let acc1 :=
    match card.trendingPrice with
    | some p => { acc with trendingTotal := acc.trendingTotal + p,
                           validCards := acc.validCards + 1 }
    | none => acc
  let acc2 :=
    match card.averagePrice with
    | some p => { acc1 with averageTotal := acc1.averageTotal + p }
    | none => acc1
  match card.lowPrice with
  | some p => { acc2 with lowTotal := acc2.lowTotal + p }
  | none => acc2

/-- calculateBundleStatistics of bundle.types.ts: filter the card list to
the bundle members, accumulate the three per-tier totals and the valid
card counter, and report the cached calculatedTotal and the id count. -/
def calculateBundleStatistics (bundle : CardBundle) (cards : List TCGCard) :
    BundleStatistics :=
  let bundleCards := cards.filter (fun card => bundle.cardIDs.contains card.id)
  let acc := bundleCards.foldl statsStep ⟨0, 0, 0, 0⟩
  { trendingTotal := acc.trendingTotal
    averageTotal := acc.averageTotal
    lowTotal := acc.lowTotal
    selectedTotal := bundle.calculatedTotal
    cardCount := bundle.cardIDs.length
    validCardCount := acc.validCards }

/-- updateBundleTotal of bundle.types.ts: filter the card list to the
bundle members, recompute the total with the bundle strategy and
multiplier, and build a new bundle value with the fresh total and the
current time; the error of calculateBundleTotal propagates. -/
def updateBundleTotal (bundle : CardBundle) (cards : List TCGCard)
    (now : Date) : Except String CardBundle :=
  let bundleCards := cards.filter (fun card => bundle.cardIDs.contains card.id)
  match calculateBundleTotal bundleCards bundle.pricingStrategy
      bundle.percentageMultiplier with
  | .error e => .error e
  | .ok newTotal =>
      .ok { bundle with calculatedTotal := newTotal, lastModified := now }

/-- validateBundle of bundle.types.ts: collect the three violation
messages independently and in order, and report validity as emptiness of
the collected list. -/
def validateBundle (bundle : CardBundle) : BundleValidation :=
  let errors : List String := []
  let errors :=
    if jsTrim bundle.name = "" then errors ++ ["Bundle name is required"]
    else errors
  let errors :=
    if bundle.cardIDs.length = 0 then
      errors ++ ["Bundle must contain at least one card"]
    else errors
  let errors :=
    if bundle.percentageMultiplier < 1/10 ∨ bundle.percentageMultiplier > 1 then
      errors ++ ["Percentage must be between 10% and 100%"]
    else errors
  { isValid := errors.length == 0, errors := errors }

/-- generatePriceTable of tcg.types.ts: one row per percentage from 100
down to 10 in steps of 10, each value the corresponding tier price, or
zero when absent, scaled by the percentage. -/
def generatePriceTable (card : TCGCard) : List PriceTableRow :=
  let percentages : List ℚ := [100, 90, 80, 70, 60, 50, 40, 30, 20, 10]
  percentages.map (fun percentage =>
    let multiplier := percentage / 100
    { percentage := percentage
      trendingValue := (card.trendingPrice.getD 0) * multiplier
      averageValue := (card.averagePrice.getD 0) * multiplier
      lowValue := (card.lowPrice.getD 0) * multiplier })

/-- getCardIdentifier of tcg.types.ts: the composite key built from the
trimmed card name, the trimmed set name defaulting to the empty string,
and the trimmed card number defaulting to the empty string, joined by
vertical bars. -/
def getCardIdentifier (card : TCGCard) : String :=
  let name := jsTrim card.cardName
  let set := (card.setName.map jsTrim).getD ""
  let number := (card.cardNumber.map jsTrim).getD ""
  name ++ "|" ++ set ++ "|" ++ number

/-- Spec-side abbreviation: the sum over a card list of the tier price
selected by the strategy, a missing tier contributing zero. -/
def strategySum (cards : List TCGCard) (strategy : PricingStrategy) : ℚ :=
  (cards.map (fun card => (getPriceForStrategy card strategy).getD 0)).sum

/-- Spec-side abbreviation: the cards of the list whose id appears among
the bundle card ids. -/
def bundleCardsOf (bundle : CardBundle) (cards : List TCGCard) : List TCGCard :=
  cards.filter (fun card => bundle.cardIDs.contains card.id)

/-- Sample card used by concrete witnesses: trending 5, average 3, no low. -/
def cardA : TCGCard :=
  { id := "a", cardName := "Alpha", trendingPrice := some 5, averagePrice := some 3 }

/-- Sample bundle with an out-of-range multiplier, used by witnesses. -/
def badBundle : CardBundle :=
  { id := "b", name := "B", cardIDs := ["a"], pricingStrategy := .trending,
    percentageMultiplier := 3/2, calculatedTotal := 0, createdAt := 0,
    lastModified := 0 }

lemma foldl_add_map_sum (g : TCGCard → ℚ) (l : List TCGCard) (a : ℚ) :
    l.foldl (fun s c => s + g c) a = a + (l.map g).sum := by
  induction l generalizing a with
  | nil => simp
  | cons x xs ih => simp [ih, add_assoc]

lemma calculateBundleTotal_ok (cards : List TCGCard) (strategy : PricingStrategy)
    (m : ℚ) (h1 : 1/10 ≤ m) (h2 : m ≤ 1) :
    calculateBundleTotal cards strategy m = .ok (m * strategySum cards strategy) := by
  unfold calculateBundleTotal
  rw [if_neg, foldl_add_map_sum, zero_add, mul_comm]
  · rfl
  · push_neg
    exact ⟨h1, h2⟩

lemma calculateBundleTotal_err (cards : List TCGCard)
    (strategy : PricingStrategy) (m : ℚ) (h : m < 1/10 ∨ 1 < m) :
    calculateBundleTotal cards strategy m = .error multiplierErrorMsg := by
  unfold calculateBundleTotal
  rw [if_pos h]

/-- C1: for every nonempty card list, strategy and multiplier in the range
from one tenth to one, calculateBundleTotal succeeds with the multiplier
times the sum of the tier prices selected by the strategy, an absent tier
contributing zero, and the result is invariant under permutation of the
card list. -/
theorem calculateBundleTotal_correct (cards : List TCGCard)
    (strategy : PricingStrategy) (multiplier : ℚ) (hne : cards ≠ [])
    (h1 : 1/10 ≤ multiplier) (h2 : multiplier ≤ 1) :
    calculateBundleTotal cards strategy multiplier
      = .ok (multiplier * strategySum cards strategy)
    ∧ ∀ cards₂ : List TCGCard, cards.Perm cards₂ →
        calculateBundleTotal cards strategy multiplier
          = calculateBundleTotal cards₂ strategy multiplier := by
  refine ⟨calculateBundleTotal_ok cards strategy multiplier h1 h2, ?_⟩
  intro cards₂ hp
  rw [calculateBundleTotal_ok cards strategy multiplier h1 h2,
    calculateBundleTotal_ok cards₂ strategy multiplier h1 h2]
  unfold strategySum
  rw [(hp.map _).sum_eq]

/-- Witness for C1 at the singleton list of the sample card. -/
theorem calculateBundleTotal_correct_witness :
    calculateBundleTotal [cardA] PricingStrategy.trending 1
      = .ok (1 * strategySum [cardA] PricingStrategy.trending) :=
  (calculateBundleTotal_correct [cardA] PricingStrategy.trending 1
    (by simp) (by norm_num) (by norm_num)).1

/-- C2: any multiplier strictly below one tenth or strictly above one
makes calculateBundleTotal fail with the invalid-multiplier error, and
updateBundleTotal fails the same way when the bundle percentage
multiplier is out of range. -/
theorem invalidMultiplier_rejected :
    (∀ (cards : List TCGCard) (strategy : PricingStrategy) (m : ℚ),
      (m < 1/10 ∨ 1 < m) →
      calculateBundleTotal cards strategy m = .error multiplierErrorMsg)
    ∧ ∀ (bundle : CardBundle) (cards : List TCGCard) (now : Date),
        (bundle.percentageMultiplier < 1/10 ∨ 1 < bundle.percentageMultiplier) →
        updateBundleTotal bundle cards now = .error multiplierErrorMsg := by
  constructor
  · intro cards s m h
    exact calculateBundleTotal_err cards s m h
  · intro b cards now h
    simp only [updateBundleTotal]
    rw [calculateBundleTotal_err _ _ _ h]

/-- Witness for C2 at multiplier one twentieth and at the bad bundle. -/
theorem invalidMultiplier_rejected_witness :
    calculateBundleTotal [] PricingStrategy.trending (1/20)
      = .error multiplierErrorMsg
    ∧ updateBundleTotal badBundle [] 0 = .error multiplierErrorMsg :=
  ⟨invalidMultiplier_rejected.1 [] PricingStrategy.trending (1/20) (by norm_num),
   invalidMultiplier_rejected.2 badBundle [] 0 (by norm_num [badBundle])⟩

/-- C10: on the empty card list, every strategy and every multiplier in
range, calculateBundleTotal succeeds and returns exactly zero. -/
theorem calculateBundleTotal_empty (strategy : PricingStrategy)
    (multiplier : ℚ) (h1 : 1/10 ≤ multiplier) (h2 : multiplier ≤ 1) :
    calculateBundleTotal [] strategy multiplier = .ok 0 := by
  rw [calculateBundleTotal_ok [] strategy multiplier h1 h2]
  simp [strategySum]

/-- Witness for C10 at the average strategy and multiplier one. -/
theorem calculateBundleTotal_empty_witness :
    calculateBundleTotal [] PricingStrategy.average 1 = .ok 0 :=
  calculateBundleTotal_empty PricingStrategy.average 1 (by norm_num) (by norm_num)

/-- Sample card with every price tier absent, used by the C3 theorem. -/
def blankCard : TCGCard := { id := "blank", cardName := "Blank" }

/-- Sample card with trending price 200 and no other tier, used by C3. -/
def card200 : TCGCard :=
  { id := "c200", cardName := "TwoHundred", trendingPrice := some 200 }

/-- First row of the price table of the 200 card, used by the C3 witness. -/
def row100 : PriceTableRow := ⟨100, 200, 0, 0⟩

/-- C3: generatePriceTable always returns exactly ten rows, with
percentages 100 down to 10 in that order, each row value the tier price,
zero when absent, scaled by the row percentage over 100; an all-absent
card yields zero everywhere, and a card with trending price 200 yields
trending value 100 at percentage 50 and exactly 200 at percentage 100. -/
theorem generatePriceTable_correct :
    (∀ card : TCGCard, (generatePriceTable card).length = 10)
    ∧ (∀ card : TCGCard, (generatePriceTable card).map PriceTableRow.percentage
        = [100, 90, 80, 70, 60, 50, 40, 30, 20, 10])
    ∧ (∀ (card : TCGCard) (row : PriceTableRow), row ∈ generatePriceTable card →
        row.trendingValue = (card.trendingPrice.getD 0) * (row.percentage / 100)
        ∧ row.averageValue = (card.averagePrice.getD 0) * (row.percentage / 100)
        ∧ row.lowValue = (card.lowPrice.getD 0) * (row.percentage / 100))
    ∧ ((generatePriceTable blankCard).all
        (fun r => r.trendingValue == 0 && r.averageValue == 0 && r.lowValue == 0)
        = true)
    ∧ (generatePriceTable card200)[5]? = some ⟨50, 100, 0, 0⟩
    ∧ (generatePriceTable card200)[0]? = some ⟨100, 200, 0, 0⟩ := by
  refine ⟨?_, ?_, ?_, ?_, ?_, ?_⟩
  · intro card
    simp [generatePriceTable]
  · intro card
    simp [generatePriceTable]
  · intro card row h
    simp [generatePriceTable] at h
    rcases h with h|h|h|h|h|h|h|h|h|h <;> subst h <;> norm_num
  · simp [generatePriceTable, blankCard]
  · norm_num [generatePriceTable, card200]
  · norm_num [generatePriceTable, card200]

/-- Witness for C3: the row formula instantiated at the 200 card and the
first table row. -/
theorem generatePriceTable_correct_witness :
    row100.trendingValue = (card200.trendingPrice.getD 0) * (row100.percentage / 100)
    ∧ row100.averageValue = (card200.averagePrice.getD 0) * (row100.percentage / 100)
    ∧ row100.lowValue = (card200.lowPrice.getD 0) * (row100.percentage / 100) :=
  generatePriceTable_correct.2.2.1 card200 row100
    (by simp [generatePriceTable, card200, row100])

lemma statsStep_eq (acc : StatsAcc) (card : TCGCard) :
    statsStep acc card =
      ⟨acc.trendingTotal + card.trendingPrice.getD 0,
       acc.averageTotal + card.averagePrice.getD 0,
       acc.lowTotal + card.lowPrice.getD 0,
       acc.validCards + (if card.trendingPrice.isSome then 1 else 0)⟩ := by
  rcases acc with ⟨t, a, l, v⟩
  cases ht : card.trendingPrice <;> cases ha : card.averagePrice <;>
    cases hl : card.lowPrice <;> simp [statsStep, ht, ha, hl]

lemma statsFoldl (l : List TCGCard) (acc : StatsAcc) :
    l.foldl statsStep acc =
      ⟨acc.trendingTotal + (l.map (fun c => c.trendingPrice.getD 0)).sum,
       acc.averageTotal + (l.map (fun c => c.averagePrice.getD 0)).sum,
       acc.lowTotal + (l.map (fun c => c.lowPrice.getD 0)).sum,
       acc.validCards + l.countP (fun c => c.trendingPrice.isSome)⟩ := by
  induction l generalizing acc with
  | nil => simp
  | cons x xs ih =>
    rw [List.foldl_cons, ih, statsStep_eq]
    cases htp : x.trendingPrice <;>
      simp [htp, List.countP_cons, add_assoc] <;> ring_nf <;> omega

lemma calculateBundleStatistics_eq (bundle : CardBundle) (cards : List TCGCard) :
    calculateBundleStatistics bundle cards =
      { trendingTotal :=
          ((bundleCardsOf bundle cards).map (fun c => c.trendingPrice.getD 0)).sum
        averageTotal :=
          ((bundleCardsOf bundle cards).map (fun c => c.averagePrice.getD 0)).sum
        lowTotal :=
          ((bundleCardsOf bundle cards).map (fun c => c.lowPrice.getD 0)).sum
        selectedTotal := bundle.calculatedTotal
        cardCount := bundle.cardIDs.length
        validCardCount :=
          (bundleCardsOf bundle cards).countP (fun c => c.trendingPrice.isSome) } := by
  simp [calculateBundleStatistics, bundleCardsOf, statsFoldl]

/-- C4: calculateBundleStatistics sums each price tier over exactly the
cards whose id appears among the bundle card ids, an absent tier
contributing zero and no multiplier applied; it counts the bundle card
ids as cardCount, counts only cards with a present trending price as
validCardCount, and returns the cached calculatedTotal verbatim. -/
theorem calculateBundleStatistics_correct (bundle : CardBundle)
    (cards : List TCGCard) :
    calculateBundleStatistics bundle cards =
      { trendingTotal :=
          ((bundleCardsOf bundle cards).map (fun c => c.trendingPrice.getD 0)).sum
        averageTotal :=
          ((bundleCardsOf bundle cards).map (fun c => c.averagePrice.getD 0)).sum
        lowTotal :=
          ((bundleCardsOf bundle cards).map (fun c => c.lowPrice.getD 0)).sum
        selectedTotal := bundle.calculatedTotal
        cardCount := bundle.cardIDs.length
        validCardCount :=
          (bundleCardsOf bundle cards).countP (fun c => c.trendingPrice.isSome) } :=
  calculateBundleStatistics_eq bundle cards

/-- Sample bundle with a valid multiplier, used by the C5 witness. -/
def okBundle : CardBundle :=
  { id := "ok", name := "OK", cardIDs := ["a"], pricingStrategy := .trending,
    percentageMultiplier := 4/5, calculatedTotal := 0, createdAt := 3,
    lastModified := 3 }

/-- C5: with an in-range multiplier, updateBundleTotal recomputes the
total via calculateBundleTotal on the bundle member cards with the bundle
strategy and multiplier, refreshes lastModified to the given time and
leaves every other field of the bundle unchanged; the input value itself
is untouched, a new record being returned. -/
theorem updateBundleTotal_correct (bundle : CardBundle) (cards : List TCGCard)
    (now : Date) (h1 : 1/10 ≤ bundle.percentageMultiplier)
    (h2 : bundle.percentageMultiplier ≤ 1) :
    calculateBundleTotal (bundleCardsOf bundle cards) bundle.pricingStrategy
        bundle.percentageMultiplier
      = .ok (bundle.percentageMultiplier
          * strategySum (bundleCardsOf bundle cards) bundle.pricingStrategy)
    ∧ updateBundleTotal bundle cards now
      = .ok { bundle with
          calculatedTotal := bundle.percentageMultiplier
            * strategySum (bundleCardsOf bundle cards) bundle.pricingStrategy
          lastModified := now }
    ∧ ∀ r : CardBundle, updateBundleTotal bundle cards now = .ok r →
        r.calculatedTotal = bundle.percentageMultiplier
          * strategySum (bundleCardsOf bundle cards) bundle.pricingStrategy
        ∧ r.lastModified = now ∧ r.id = bundle.id ∧ r.name = bundle.name
        ∧ r.cardIDs = bundle.cardIDs
        ∧ r.pricingStrategy = bundle.pricingStrategy
        ∧ r.percentageMultiplier = bundle.percentageMultiplier
        ∧ r.notes = bundle.notes ∧ r.createdAt = bundle.createdAt := by
  have hok := calculateBundleTotal_ok (bundleCardsOf bundle cards)
    bundle.pricingStrategy bundle.percentageMultiplier h1 h2
  have hupd : updateBundleTotal bundle cards now
      = .ok { bundle with
          calculatedTotal := bundle.percentageMultiplier
            * strategySum (bundleCardsOf bundle cards) bundle.pricingStrategy
          lastModified := now } := by
    simp only [bundleCardsOf] at hok
    simp only [updateBundleTotal]
    rw [hok]
    rfl
  refine ⟨hok, hupd, ?_⟩
  intro r hr
  rw [hupd] at hr
  injection hr with h
  subst h
  simp

/-- Witness for C5 at the valid sample bundle and the sample card. -/
theorem updateBundleTotal_correct_witness :
    updateBundleTotal okBundle [cardA] 7
      = .ok { okBundle with
          calculatedTotal := okBundle.percentageMultiplier
            * strategySum (bundleCardsOf okBundle [cardA]) okBundle.pricingStrategy
          lastModified := 7 } :=
  (updateBundleTotal_correct okBundle [cardA] 7
    (by norm_num [okBundle]) (by norm_num [okBundle])).2.1

lemma lengthBeqZero_eq_isEmpty (l : List String) : (l.length == 0) = l.isEmpty := by
  cases l <;> simp

/-- Bundle violating all three validation rules, used by the C6 theorem. -/
def emptyBundle : CardBundle :=
  { id := "e", name := "  ", cardIDs := [], pricingStrategy := .trending,
    percentageMultiplier := 3/2, calculatedTotal := 0, createdAt := 0,
    lastModified := 0 }

/-- C6: validateBundle always returns, collecting the violation messages
of the three checks independently and in order, name nonempty after
trimming, card ids nonempty, multiplier in range; validity is emptiness
of the message list, and the all-violating bundle gets exactly three
messages. -/
theorem validateBundle_correct :
    (∀ bundle : CardBundle, (validateBundle bundle).errors =
      (if jsTrim bundle.name = "" then ["Bundle name is required"] else [])
      ++ (if bundle.cardIDs = [] then ["Bundle must contain at least one card"]
          else [])
      ++ (if bundle.percentageMultiplier < 1/10 ∨ bundle.percentageMultiplier > 1
          then ["Percentage must be between 10% and 100%"] else []))
    ∧ (∀ bundle : CardBundle,
        (validateBundle bundle).isValid = (validateBundle bundle).errors.isEmpty)
    ∧ (validateBundle emptyBundle).errors.length = 3 := by
  refine ⟨?_, ?_, ?_⟩
  · intro bundle
    by_cases hn : jsTrim bundle.name = "" <;>
      by_cases hc : bundle.cardIDs = [] <;>
      by_cases hm : bundle.percentageMultiplier < 10⁻¹
          ∨ 1 < bundle.percentageMultiplier <;>
      simp [validateBundle, List.length_eq_zero, hn, hc, hm]
  · intro bundle
    exact lengthBeqZero_eq_isEmpty (validateBundle bundle).errors
  · have h1 : jsTrim "  " = "" := by decide
    have h3 : (3/2 : ℚ) < 10⁻¹ ∨ (1 : ℚ) < 3/2 := by norm_num
    simp [validateBundle, emptyBundle, h1, h3]

/-- Bundle listing the same card id twice, used by the C7 counterexample. -/
def dupBundle : CardBundle :=
  { id := "d", name := "Dup", cardIDs := ["a", "a"], pricingStrategy := .trending,
    percentageMultiplier := 1, calculatedTotal := 0, createdAt := 0,
    lastModified := 0 }

/-- C7 counterexample: the id a occurs twice in the bundle and resolves to
the sample card of trending price 5, yet both calculateBundleStatistics
and updateBundleTotal count that price once, not twice, because membership
is decided by filtering the card list. -/
theorem dupCardIDs_counterexample :
    dupBundle.cardIDs = ["a", "a"]
    ∧ cardA.id = "a"
    ∧ cardA.trendingPrice = some 5
    ∧ dupBundle.percentageMultiplier = 1
    ∧ (calculateBundleStatistics dupBundle [cardA]).trendingTotal = 5
    ∧ (calculateBundleStatistics dupBundle [cardA]).trendingTotal ≠ 10
    ∧ (updateBundleTotal dupBundle [cardA] 0).map CardBundle.calculatedTotal
        = .ok 5
    ∧ (updateBundleTotal dupBundle [cardA] 0).map CardBundle.calculatedTotal
        ≠ .ok 10 := by
  have hstats : (calculateBundleStatistics dupBundle [cardA]).trendingTotal = 5 := by
    norm_num [calculateBundleStatistics, statsStep, dupBundle, cardA]
  have hupd : (updateBundleTotal dupBundle [cardA] 0).map CardBundle.calculatedTotal
      = .ok 5 := by
    norm_num [updateBundleTotal, calculateBundleTotal, getPriceForStrategy,
      Except.map, dupBundle, cardA]
  refine ⟨rfl, rfl, rfl, rfl, hstats, ?_, hupd, ?_⟩
  · rw [hstats]
    norm_num
  · rw [hupd]
    intro h
    injection h with h
    norm_num at h

lemma filter_contains_dedup (ids : List String) (cs : List TCGCard) :
    cs.filter (fun c => (ids.dedup).contains c.id)
      = cs.filter (fun c => ids.contains c.id) := by
  apply List.filter_congr
  intro c _
  by_cases h : c.id ∈ ids <;> simp [List.elem_iff, h]

/-- C7 amended: membership of a card in the bundle is decided by filtering
the card list against the bundle card ids, so the computed totals follow
set semantics on cardIDs, deduplicating the ids changes no total, and list
semantics on the cards argument, each occurrence of a card in the list
contributing once. -/
theorem bundleTotals_dedup_invariant :
    ∀ (bundle : CardBundle) (cards : List TCGCard) (now : Date),
      (calculateBundleStatistics { bundle with cardIDs := bundle.cardIDs.dedup }
          cards).trendingTotal
        = (calculateBundleStatistics bundle cards).trendingTotal
      ∧ (calculateBundleStatistics { bundle with cardIDs := bundle.cardIDs.dedup }
          cards).averageTotal
        = (calculateBundleStatistics bundle cards).averageTotal
      ∧ (calculateBundleStatistics { bundle with cardIDs := bundle.cardIDs.dedup }
          cards).lowTotal
        = (calculateBundleStatistics bundle cards).lowTotal
      ∧ (calculateBundleStatistics { bundle with cardIDs := bundle.cardIDs.dedup }
          cards).validCardCount
        = (calculateBundleStatistics bundle cards).validCardCount
      ∧ (updateBundleTotal { bundle with cardIDs := bundle.cardIDs.dedup }
          cards now).map CardBundle.calculatedTotal
        = (updateBundleTotal bundle cards now).map CardBundle.calculatedTotal
      ∧ ∀ c : TCGCard,
          (calculateBundleStatistics bundle (c :: cards)).trendingTotal
            = (if bundle.cardIDs.contains c.id then c.trendingPrice.getD 0 else 0)
              + (calculateBundleStatistics bundle cards).trendingTotal := by
  intro bundle cards now
  refine ⟨?_, ?_, ?_, ?_, ?_, ?_⟩
  · simp [calculateBundleStatistics_eq, bundleCardsOf, filter_contains_dedup]
  · simp [calculateBundleStatistics_eq, bundleCardsOf, filter_contains_dedup]
  · simp [calculateBundleStatistics_eq, bundleCardsOf, filter_contains_dedup]
  · simp [calculateBundleStatistics_eq, bundleCardsOf, filter_contains_dedup]
  · simp only [updateBundleTotal, filter_contains_dedup]
    cases hres : calculateBundleTotal
        (cards.filter fun card => bundle.cardIDs.contains card.id)
        bundle.pricingStrategy bundle.percentageMultiplier <;> simp [Except.map]
  · intro c
    rw [calculateBundleStatistics_eq, calculateBundleStatistics_eq]
    simp only [bundleCardsOf, List.filter_cons]
    by_cases h : c.id ∈ bundle.cardIDs <;> simp [h]

/-- C8: every core operation is a function of its explicit arguments, the
ambient clock of updateBundleTotal included as the now argument, so equal
arguments give equal results; updateBundleTotal builds and returns a new
bundle value whose identifying fields all come from the input bundle,
leaving the input itself untouched. -/
theorem coreOps_deterministic :
    (∀ (cards₁ cards₂ : List TCGCard) (s₁ s₂ : PricingStrategy) (m₁ m₂ : ℚ),
      cards₁ = cards₂ → s₁ = s₂ → m₁ = m₂ →
      calculateBundleTotal cards₁ s₁ m₁ = calculateBundleTotal cards₂ s₂ m₂)
    ∧ (∀ (b₁ b₂ : CardBundle) (cs₁ cs₂ : List TCGCard), b₁ = b₂ → cs₁ = cs₂ →
        calculateBundleStatistics b₁ cs₁ = calculateBundleStatistics b₂ cs₂)
    ∧ (∀ (b₁ b₂ : CardBundle) (cs₁ cs₂ : List TCGCard) (n₁ n₂ : Date),
        b₁ = b₂ → cs₁ = cs₂ → n₁ = n₂ →
        updateBundleTotal b₁ cs₁ n₁ = updateBundleTotal b₂ cs₂ n₂)
    ∧ (∀ b₁ b₂ : CardBundle, b₁ = b₂ → validateBundle b₁ = validateBundle b₂)
    ∧ (∀ c₁ c₂ : TCGCard, c₁ = c₂ → generatePriceTable c₁ = generatePriceTable c₂)
    ∧ (∀ c₁ c₂ : TCGCard, c₁ = c₂ → getCardIdentifier c₁ = getCardIdentifier c₂)
    ∧ (∀ (b : CardBundle) (cs : List TCGCard) (n : Date) (r : CardBundle),
        updateBundleTotal b cs n = .ok r →
        r.id = b.id ∧ r.name = b.name ∧ r.cardIDs = b.cardIDs
        ∧ r.pricingStrategy = b.pricingStrategy
        ∧ r.percentageMultiplier = b.percentageMultiplier
        ∧ r.notes = b.notes ∧ r.createdAt = b.createdAt) := by
  refine ⟨?_, ?_, ?_, ?_, ?_, ?_, ?_⟩
  · rintro cards₁ _ s₁ _ m₁ _ rfl rfl rfl
    rfl
  · rintro b₁ _ cs₁ _ rfl rfl
    rfl
  · rintro b₁ _ cs₁ _ n₁ _ rfl rfl rfl
    rfl
  · rintro b₁ _ rfl
    rfl
  · rintro c₁ _ rfl
    rfl
  · rintro c₁ _ rfl
    rfl
  · intro b cs n r h
    simp only [updateBundleTotal] at h
    cases hres : calculateBundleTotal
        (cs.filter fun card => b.cardIDs.contains card.id)
        b.pricingStrategy b.percentageMultiplier with
    | error e =>
        rw [hres] at h
        simp at h
    | ok v =>
        rw [hres] at h
        simp only [Except.ok.injEq] at h
        subst h
        simp

/-- Witness for C8: three of the congruence components applied at
concrete arguments. -/
theorem coreOps_deterministic_witness :
    calculateBundleTotal [cardA] PricingStrategy.low (1/2)
      = calculateBundleTotal [cardA] PricingStrategy.low (1/2)
    ∧ updateBundleTotal okBundle [cardA] 7 = updateBundleTotal okBundle [cardA] 7
    ∧ validateBundle okBundle = validateBundle okBundle :=
  ⟨coreOps_deterministic.1 [cardA] [cardA] PricingStrategy.low PricingStrategy.low
      (1/2) (1/2) rfl rfl rfl,
   coreOps_deterministic.2.2.1 okBundle okBundle [cardA] [cardA] 7 7 rfl rfl rfl,
   coreOps_deterministic.2.2.2.1 okBundle okBundle rfl⟩

/-- Card with name x, used by the C9 counterexample. -/
def cardX : TCGCard := { id := "1", cardName := "x" }

/-- Card with name x followed by a space, used by the C9 counterexample. -/
def cardXsp : TCGCard := { id := "2", cardName := "x " }

/-- First of two scans of the same card, used by the C9 witness. -/
def cardY1 : TCGCard :=
  { id := "y1", cardName := "Pikachu", setName := some "Base",
    cardNumber := some "58/102" }

/-- Second of two scans of the same card, used by the C9 witness. -/
def cardY2 : TCGCard :=
  { id := "y2", cardName := "Pikachu", setName := some "Base",
    cardNumber := some "58/102" }

/-- C9 counterexample: two cards that differ in cardName, one carrying a
trailing space, agree on the other two fields and still receive the same
identifier, because the name is trimmed before the key is assembled. -/
theorem getCardIdentifier_injective_counterexample :
    cardX.cardName ≠ cardXsp.cardName
    ∧ cardX.setName = cardXsp.setName
    ∧ cardX.cardNumber = cardXsp.cardNumber
    ∧ getCardIdentifier cardX = getCardIdentifier cardXsp :=
  ⟨by decide, rfl, rfl, by decide⟩

/-- C9 amended: cards agreeing on cardName, setName and cardNumber receive
identical identifiers whatever their id values, and the identifier equals
the trimmed name, the trimmed set name defaulting to empty, and the
trimmed number defaulting to empty, joined by vertical bars; cards
differing in one of the three fields may nevertheless collide, as the
counterexample shows, so difference of a field does not guarantee a
different identifier. -/
theorem getCardIdentifier_stable :
    (∀ c₁ c₂ : TCGCard, c₁.cardName = c₂.cardName → c₁.setName = c₂.setName →
      c₁.cardNumber = c₂.cardNumber → getCardIdentifier c₁ = getCardIdentifier c₂)
    ∧ (∀ c : TCGCard, getCardIdentifier c
        = jsTrim c.cardName ++ "|" ++ jsTrim (c.setName.getD "")
          ++ "|" ++ jsTrim (c.cardNumber.getD "")) := by
  have h0 : jsTrim "" = "" := by decide
  constructor
  · intro c₁ c₂ hn hs hc
    simp [getCardIdentifier, hn, hs, hc]
  · intro c
    cases hs : c.setName <;> cases hc : c.cardNumber <;>
      simp [getCardIdentifier, hs, hc, h0]

/-- Witness for C9: two scans of the same physical card with different id
values share one identifier. -/
theorem getCardIdentifier_stable_witness :
    getCardIdentifier cardY1 = getCardIdentifier cardY2 :=
  getCardIdentifier_stable.1 cardY1 cardY2 rfl rfl rfl
